import Mathlib

/-!
Shallow embedding of `src/main.py` (FP&A Mini Backend): symbol translation,
TTL cache, the quote/chart fallback resolvers and the fundamentals combiner.

Modelling conventions:
* Python `float` values carried by the service are embedded as `ℚ` (the claims
  under study concern null-propagation and fallback control flow, not IEEE
  rounding); Python `None` is `Option.none`.
* Upstream providers (network calls) are oracles passed as function arguments;
  the adapters' normalisation shape is taken from the source: `alpha_quote`
  returns `(price, None, None)` (line 61) and `stooq_quote` returns
  `(price, None, None)` (line 114), while `yf_quote` may return all three
  fields (lines 99-102).
* `time.time()` is an explicit `now : ℚ` argument; the module-level `_cache`
  dict is explicit state of type `K → Option (V × ℚ)`.
* Python string operations (`strip`, `upper`, `lower`, `split`, `replace`)
  are modelled at the character-list level by the `py*` primitives below,
  with Python's documented semantics (the service only handles ASCII
  tickers).
-/

set_option autoImplicit false

namespace IRRailway

/-- Python's default `str.strip` whitespace set: space, tab, newline,
carriage return, vertical tab, form feed. -/
def pyIsSpace (c : Char) : Bool :=
  c = ' ' || c = '\t' || c = '\n' || c = '\r' || c = '\x0b' || c = '\x0c'

/-- Python `str.strip()` on a character list: drop whitespace from both
ends. -/
def pyStrip (l : List Char) : List Char :=
  ((l.dropWhile pyIsSpace).reverse.dropWhile pyIsSpace).reverse

/-- Python `str.upper()` (ASCII). -/
def pyUpper (l : List Char) : List Char :=
  l.map Char.toUpper

/-- Python `str.lower()` (ASCII). -/
def pyLower (l : List Char) : List Char :=
  l.map Char.toLower

/-- Python `str.split(sep)` for a one-character separator: splitting the
empty string gives `[""]`, and consecutive separators give empty fields. -/
def pySplit (sep : Char) : List Char → List (List Char)
  | [] => [[]]
  | c :: cs =>
    if c = sep then [] :: pySplit sep cs
    else
      match pySplit sep cs with
      | [] => [[c]]
      | h :: t => (c :: h) :: t

/-- Python `str.replace pat repl` scanning left to right over at most
`fuel` characters: replaces every non-overlapping occurrence of the
nonempty pattern `pat`. Structured with explicit fuel so that it reduces by
kernel computation; `replaceAll` supplies `fuel = length`, which suffices
because every step consumes at least one character. -/
def replaceAllAux (pat repl : List Char) : ℕ → List Char → List Char
  | _, [] => []
  | 0, l => l
  | fuel + 1, c :: cs =>
    if pat ≠ [] ∧ pat.isPrefixOf (c :: cs) then
      repl ++ replaceAllAux pat repl fuel ((c :: cs).drop pat.length)
    else
      c :: replaceAllAux pat repl fuel cs

/-- Python `str.replace` on character lists (nonempty pattern; the service
only ever replaces the pattern `".SA"`). -/
def replaceAll (pat repl : List Char) (l : List Char) : List Char :=
  replaceAllAux pat repl l.length l

/-- `src/main.py` line 35: `is_b3`: `sym.strip().upper().endswith(".SA")`. -/
def is_b3 (sym : String) : Bool :=
  ".SA".data.isSuffixOf (pyUpper (pyStrip sym.data))

/-- `src/main.py` lines 38-39: `to_alpha_symbol`:
`sym.strip().upper().replace(".SA", "") + ".SAO"`. -/
def to_alpha_symbol (sym : String) : String :=
  String.mk (replaceAll ".SA".data [] (pyUpper (pyStrip sym.data))) ++ ".SAO"

/-- `src/main.py` lines 41-42: `stooq_symbol`: `sym.strip().lower()`. -/
def stooq_symbol (sym : String) : String :=
  String.mk (pyLower (pyStrip sym.data))

/-! ## TTL cache (`src/main.py` lines 20-33) -/

/-- `CACHE_TTL = 60` (line 20). -/
def CACHE_TTL : ℚ := 60

/-- The module-level `_cache` dict, as explicit state. A stored entry is the
pair `(val, ts)` written by `cache_set`. -/
def Cache (K V : Type) : Type := K → Option (V × ℚ)

/-- `src/main.py` lines 23-30: `cache_get`. Returns the looked-up value
together with the cache state after the call (the call pops the entry when
it is expired). Note the stored pair `(val, ts)` is a nonempty tuple, hence
always truthy in Python: `if not v` only fires on an absent key. -/
def cache_get {K V : Type} [DecidableEq K] (c : Cache K V) (now : ℚ) (k : K) :
    Option V × Cache K V :=
  match c k with
  | none => (none, c)
  | some (val, ts) =>
    if now - ts > CACHE_TTL then
      (none, fun k2 => if k2 = k then none else c k2)
    else
      (some val, c)

/-- `src/main.py` lines 32-33: `cache_set`. -/
def cache_set {K V : Type} [DecidableEq K] (c : Cache K V) (now : ℚ) (k : K) (v : V) :
    Cache K V :=
  fun k2 => if k2 = k then some (v, now) else c k2

/-! ## Quote resolver (`src/main.py` lines 197-224) -/

/-- The normalized triple `(price, shares, marketCap)` a quote adapter
returns (§ of the source: `alpha_quote`, `yf_quote`, `stooq_quote`). -/
structure ProviderQuote where
  price : Option ℚ
  shares : Option ℤ
  mcap : Option ℚ
deriving DecidableEq, Repr

/-- One entry of the `result` list built at lines 217-223. `source` is
modelled as `Option String` because the JSON field could in principle be
null; the code always assigns a provider name string. -/
structure QuoteOut where
  symbol : String
  regularMarketPrice : Option ℚ
  marketCap : Option ℚ
  sharesOutstanding : Option ℤ
  source : Option String
deriving DecidableEq, Repr

/-- One entry of the `errors` list built at line 215. -/
structure ErrEntry where
  symbol : String
  error : String
deriving DecidableEq, Repr

/-- The response `{"result": out, "errors": errors}` of line 224. -/
structure QuoteResponse where
  result : List QuoteOut
  errors : List ErrEntry
deriving DecidableEq, Repr

/-- The loop body of `quote` (`src/main.py` lines 201-223) for one ticker
`t`, given the three adapters' normalized results: Alpha, then yfinance,
then Stooq; `source` starts as `"alpha"` and is updated only when a
fallback's price is non-null. Returns the `result` entry and the optional
`errors` entry. -/
def quoteStep (alphaRes yfRes stooqRes : ProviderQuote) (t : String) :
    QuoteOut × Option ErrEntry :=
  -- price, shares, mcap = alpha_quote(t); source = "alpha"
  let st1 : String × Option ℚ × Option ℤ × Option ℚ :=
    ("alpha", alphaRes.price, alphaRes.shares, alphaRes.mcap)
  -- if price is None: p2, s2, m2 = yf_quote(t); if p2 is not None: ...
  let st2 : String × Option ℚ × Option ℤ × Option ℚ :=
    if st1.2.1 = none then
      match yfRes.price with
      | some p2 => ("yfinance", some p2, yfRes.shares, yfRes.mcap)
      | none => st1
    else st1
  -- if price is None: p3, s3, m3 = stooq_quote(t); if p3 is not None: ...
  let st3 : String × Option ℚ × Option ℤ × Option ℚ :=
    if st2.2.1 = none then
      match stooqRes.price with
      | some p3 => ("stooq", some p3, stooqRes.shares, stooqRes.mcap)
      | none => st2
    else st2
  let err : Option ErrEntry :=
    if st3.2.1 = none then some ⟨t, "no_data_all_sources"⟩ else none
  (⟨t, st3.2.1, st3.2.2.2, st3.2.2.1, some st3.1⟩, err)

/-- `src/main.py` line 199: parse the `symbols` query string:
`[s.strip() for s in symbols.split(",") if s.strip()]`. -/
def parseSymbols (symbols : String) : List String :=
  (((pySplit ',' symbols.data).map pyStrip).filter (fun l => l ≠ [])).map String.mk

/-- The `/quote` endpoint (`src/main.py` lines 197-224). The upstream
behaviour is given by oracles: `aPrice`/`sPrice` give the price field of
`alpha_quote`/`stooq_quote` (whose shares and marketCap are structurally
`None`, source lines 61 and 114), `yfq` gives `yf_quote`'s full triple.
The endpoint is a total function: it always returns a 200 response body. -/
def quote (aPrice : String → Option ℚ) (yfq : String → ProviderQuote)
    (sPrice : String → Option ℚ) (symbols : String) : QuoteResponse :=
  let syms := parseSymbols symbols
  let pairs := syms.map fun t =>
    quoteStep ⟨aPrice t, none, none⟩ (yfq t) ⟨sPrice t, none, none⟩ t
  ⟨pairs.map Prod.fst, pairs.filterMap Prod.snd⟩

/-! ## Chart resolver (`src/main.py` lines 226-245) -/

/-- The outcome of the `/chart` endpoint: either a JSON body
`{"close": closes, "source": src}` with HTTP 200, or a raw `Response` with
an HTTP status code and a literal body string (line 245). -/
inductive ChartResult where
  | ok (close : List ℚ) (source : String)
  | err (status : ℕ) (body : String)
deriving DecidableEq, Repr

/-- `src/main.py` line 241: translate the request interval token to Stooq's
interval vocabulary. -/
def stooqInterval (interval : String) : String :=
  if "1d".data.isPrefixOf (pyLower interval.data) then "d"
  else if "1w".data.isPrefixOf (pyLower interval.data) then "w"
  else "m"

/-- The `/chart` endpoint (`src/main.py` lines 226-245). Oracles give each
provider's closes series; an upstream failure is an empty series (the
adapters swallow every exception into `[]`, and the inline yfinance
`try`-block at lines 233-239 likewise falls through on exception or empty
data). Providers are tried in order Alpha, yfinance, Stooq; the first
non-empty series wins. -/
def chart (alphaC : String → List ℚ) (yfC : String → String → String → List ℚ)
    (stooqC : String → String → List ℚ)
    (symbol : String) (range : String) (interval : String) : ChartResult :=
  let closes := alphaC symbol
  if closes ≠ [] then ChartResult.ok closes "alpha"
  else
    let closes2 := yfC symbol range interval
    if closes2 ≠ [] then ChartResult.ok closes2 "yfinance"
    else
      let closes3 := stooqC symbol (stooqInterval interval)
      if closes3 ≠ [] then ChartResult.ok closes3 "stooq"
      else ChartResult.err 502 "\x7b\"error\":\"no_data_all_sources\"\x7d"

/-! ## Fundamentals combiner (`src/main.py` lines 247-304) -/

/-- The normalized output of `alpha_overview` (lines 149-158); on any
failure or missing key the adapter yields all fields `None` (an empty dict
whose `.get` calls all return `None`). -/
structure Overview where
  MarketCapitalization : Option ℚ
  EBITDA : Option ℚ
  DilutedEPSTTM : Option ℚ
  BookValue : Option ℚ
  SharesOutstanding : Option ℤ
  PERatio : Option ℚ
  PriceToBookRatio : Option ℚ
  EVToEBITDA : Option ℚ
deriving DecidableEq, Repr

/-- The normalized output of `alpha_balance_latest` (lines 180-185);
failure yields both fields `None`. -/
structure BalanceLatest where
  TotalDebt : Option ℚ
  Cash : Option ℚ
deriving DecidableEq, Repr

/-- The `multiples` sub-object of the fundamentals response (lines
299-303). -/
structure Multiples where
  evEbitda : Option ℚ
  pe : Option ℚ
  pb : Option ℚ
deriving DecidableEq, Repr

/-- The `/fundamentals` response body (lines 285-304). Every field is
always present; `source` is the literal `"alpha"`. -/
structure Fundamentals where
  symbol : String
  source : String
  price : Option ℚ
  sharesOutstanding : Option ℤ
  marketCap : Option ℚ
  totalDebt : Option ℚ
  cash : Option ℚ
  netDebt : Option ℚ
  ev : Option ℚ
  ebitdaTTM : Option ℚ
  epsTTM : Option ℚ
  bookValuePerShare : Option ℚ
  equityBookValue : Option ℚ
  multiples : Multiples
deriving DecidableEq, Repr

/-- Python `a or b` on optional numbers: `a` when `a` is truthy (non-`None`
and nonzero), else `b`. Used by lines 300-302 of the source. -/
def pyOr (a b : Option ℚ) : Option ℚ :=
  match a with
  | some v => if v ≠ 0 then some v else b
  | none => b

/-- The `/fundamentals` endpoint (`src/main.py` lines 247-304), with the
three upstream lookups (`alpha_overview`, `alpha_balance_latest`,
`alpha_price`) supplied as already-normalized oracle data. -/
def fundamentals (ticker : String) (ov : Overview) (bal : BalanceLatest)
    (price : Option ℚ) : Fundamentals :=
  let sym := String.mk (pyUpper (pyStrip ticker.data))
  let shares := ov.SharesOutstanding
  let marketCap := ov.MarketCapitalization
  let ebitda := ov.EBITDA
  let eps := ov.DilutedEPSTTM
  let bvps := ov.BookValue
  let pe_av := ov.PERatio
  let pb_av := ov.PriceToBookRatio
  let ev_ebitda_av := ov.EVToEBITDA
  let totalDebt := bal.TotalDebt
  let cash := bal.Cash
  -- netDebt = (totalDebt - cash) if (totalDebt is not None and cash is not None) else None
  let netDebt : Option ℚ :=
    match totalDebt, cash with
    | some td, some ca => some (td - ca)
    | _, _ => none
  -- ev = (marketCap + netDebt) if (marketCap is not None and netDebt is not None) else None
  let ev : Option ℚ :=
    match marketCap, netDebt with
    | some mc, some nd => some (mc + nd)
    | _, _ => none
  -- evEbitda_calc = (ev / ebitda) if (ev is not None and ebitda and ebitda > 0) else None
  let evEbitda_calc : Option ℚ :=
    match ev, ebitda with
    | some e, some b => if b > 0 then some (e / b) else none
    | _, _ => none
  -- pe_calc = (price / eps) if (price is not None and eps and eps != 0) else None
  let pe_calc : Option ℚ :=
    match price, eps with
    | some p, some e => if e ≠ 0 then some (p / e) else none
    | _, _ => none
  -- equityBV = (bvps * shares) if (bvps is not None and shares is not None) else None
  let equityBV : Option ℚ :=
    match bvps, shares with
    | some b, some sh => some (b * (sh : ℚ))
    | _, _ => none
  -- pb_calc = (marketCap / equityBV) if (marketCap is not None and equityBV and equityBV > 0) else None
  let pb_calc : Option ℚ :=
    match marketCap, equityBV with
    | some mc, some q => if q > 0 then some (mc / q) else none
    | _, _ => none
  { symbol := sym
    source := "alpha"
    price := price
    sharesOutstanding := shares
    marketCap := marketCap
    totalDebt := totalDebt
    cash := cash
    netDebt := netDebt
    ev := ev
    ebitdaTTM := ebitda
    epsTTM := eps
    bookValuePerShare := bvps
    equityBookValue := equityBV
    multiples :=
      { evEbitda := pyOr evEbitda_calc ev_ebitda_av
        pe := pyOr pe_calc pe_av
        pb := pyOr pb_calc pb_av } }

/-- Concrete overview data for exercising the `pe` multiple: the provider
reports `PERatio = 7` while `DilutedEPSTTM = -1`; every other field is
absent. -/
def ovC6 : Overview :=
  ⟨none, none, some (-1), none, none, some 7, none, none⟩

/-! ## Helper lemmas -/

/-- `netDebt` field of the fundamentals response, as a function of the
balance-sheet inputs. -/
lemma fundamentals_netDebt (ticker : String) (ov : Overview)
    (bal : BalanceLatest) (price : Option ℚ) :
    (fundamentals ticker ov bal price).netDebt =
      (match bal.TotalDebt, bal.Cash with
       | some td, some ca => some (td - ca)
       | _, _ => none) := by
  obtain ⟨mc, eb, eps, bv, sh, peav, pbav, evav⟩ := ov
  obtain ⟨td, ca⟩ := bal
  rfl

/-- `ev` field of the fundamentals response, as a function of `marketCap`
and the computed `netDebt`. -/
lemma fundamentals_ev (ticker : String) (ov : Overview) (bal : BalanceLatest)
    (price : Option ℚ) :
    (fundamentals ticker ov bal price).ev =
      (match ov.MarketCapitalization, (fundamentals ticker ov bal price).netDebt with
       | some mc, some nd => some (mc + nd)
       | _, _ => none) := by
  obtain ⟨mc, eb, eps, bv, sh, peav, pbav, evav⟩ := ov
  obtain ⟨td, ca⟩ := bal
  rfl

/-- `equityBookValue` field of the fundamentals response. -/
lemma fundamentals_equityBV (ticker : String) (ov : Overview)
    (bal : BalanceLatest) (price : Option ℚ) :
    (fundamentals ticker ov bal price).equityBookValue =
      (match ov.BookValue, ov.SharesOutstanding with
       | some b, some sh => some (b * (sh : ℚ))
       | _, _ => none) := by
  obtain ⟨mc, eb, eps, bv, sh, peav, pbav, evav⟩ := ov
  obtain ⟨td, ca⟩ := bal
  rfl

/-- `evEbitda` multiple of the fundamentals response: local computation
guarded by `ebitda > 0`, then the Python `or` fallback. -/
lemma fundamentals_evEbitda (ticker : String) (ov : Overview)
    (bal : BalanceLatest) (price : Option ℚ) :
    (fundamentals ticker ov bal price).multiples.evEbitda =
      pyOr
        (match (fundamentals ticker ov bal price).ev, ov.EBITDA with
         | some e, some b => if b > 0 then some (e / b) else none
         | _, _ => none)
        ov.EVToEBITDA := by
  obtain ⟨mc, eb, eps, bv, sh, peav, pbav, evav⟩ := ov
  obtain ⟨td, ca⟩ := bal
  rfl

/-- `pe` multiple of the fundamentals response: local computation guarded
by `eps != 0`, then the Python `or` fallback. -/
lemma fundamentals_pe (ticker : String) (ov : Overview) (bal : BalanceLatest)
    (price : Option ℚ) :
    (fundamentals ticker ov bal price).multiples.pe =
      pyOr
        (match price, ov.DilutedEPSTTM with
         | some p, some e => if e ≠ 0 then some (p / e) else none
         | _, _ => none)
        ov.PERatio := by
  obtain ⟨mc, eb, eps, bv, sh, peav, pbav, evav⟩ := ov
  obtain ⟨td, ca⟩ := bal
  rfl

/-- `pb` multiple of the fundamentals response: local computation guarded
by `equityBookValue > 0`, then the Python `or` fallback. -/
lemma fundamentals_pb (ticker : String) (ov : Overview) (bal : BalanceLatest)
    (price : Option ℚ) :
    (fundamentals ticker ov bal price).multiples.pb =
      pyOr
        (match ov.MarketCapitalization,
               (fundamentals ticker ov bal price).equityBookValue with
         | some m, some q => if q > 0 then some (m / q) else none
         | _, _ => none)
        ov.PriceToBookRatio := by
  obtain ⟨mc, eb, eps, bv, sh, peav, pbav, evav⟩ := ov
  obtain ⟨td, ca⟩ := bal
  rfl

/-- Mapping a per-ticker step whose outputs are uniform: extracting the
first components gives a map, and filtering the always-`some` second
components gives a map as well. -/
lemma map_fst_filterMap_snd {α β γ : Type} (l : List α)
    (f : α → β × Option γ) (g : α → β) (e : α → γ)
    (hf : ∀ t, f t = (g t, some (e t))) :
    (l.map f).map Prod.fst = l.map g ∧ (l.map f).filterMap Prod.snd = l.map e := by
  induction l with
  | nil => simp
  | cons a l ih => simp [hf, ih.1, ih.2]

/-- When every provider's price is null, the quote loop body yields the
all-null entry with `source = "alpha"` and the `no_data_all_sources` error
entry. -/
lemma quoteStep_all_none (y : ProviderQuote) (t : String) (hy : y.price = none) :
    quoteStep ⟨none, none, none⟩ y ⟨none, none, none⟩ t =
      (⟨t, none, none, none, some "alpha"⟩, some ⟨t, "no_data_all_sources"⟩) := by
  simp [quoteStep, hy]

/-! ## Claims -/

/-- C1: the quote providers are consulted in the fixed order Alpha,
yfinance, Stooq; the first provider whose returned price is non-null
supplies the entry's price, sharesOutstanding and marketCap, with that
provider's name recorded as `source`, and no error entry is emitted; in
particular, when Alpha yields a null price and yfinance yields price 30.5
with null shares and marketCap, the entry is
`{symbol, regularMarketPrice: 30.5, marketCap: null, sharesOutstanding:
null, source: "yfinance"}` with no error entry. -/
theorem C1_quote_fallback (a y s : ProviderQuote) (t : String) :
    (a.price.isSome →
      quoteStep a y s t = (⟨t, a.price, a.mcap, a.shares, some "alpha"⟩, none)) ∧
    (a.price = none → y.price.isSome →
      quoteStep a y s t = (⟨t, y.price, y.mcap, y.shares, some "yfinance"⟩, none)) ∧
    (a.price = none → y.price = none → s.price.isSome →
      quoteStep a y s t = (⟨t, s.price, s.mcap, s.shares, some "stooq"⟩, none)) ∧
    (a.price = none → y = ⟨some ((61 : ℚ) / 2), none, none⟩ →
      quoteStep a y s t =
        (⟨t, some ((61 : ℚ) / 2), none, none, some "yfinance"⟩, none)) := by
  refine ⟨?_, ?_, ?_, ?_⟩
  · intro h
    obtain ⟨p, hp⟩ := Option.isSome_iff_exists.mp h
    simp [quoteStep, hp]
  · intro ha h
    obtain ⟨p, hp⟩ := Option.isSome_iff_exists.mp h
    simp [quoteStep, ha, hp]
  · intro ha hy h
    obtain ⟨p, hp⟩ := Option.isSome_iff_exists.mp h
    simp [quoteStep, ha, hy, hp]
  · intro ha hy
    subst hy
    simp [quoteStep, ha]

/-- C1 witness: the scenario of the claim at concrete inputs. -/
theorem C1_quote_fallback_witness :
    quoteStep ⟨none, none, none⟩ ⟨some ((61 : ℚ) / 2), none, none⟩
        ⟨none, none, none⟩ "PETR4.SA" =
      (⟨"PETR4.SA", some ((61 : ℚ) / 2), none, none, some "yfinance"⟩, none) :=
  (C1_quote_fallback ⟨none, none, none⟩ ⟨some ((61 : ℚ) / 2), none, none⟩
    ⟨none, none, none⟩ "PETR4.SA").2.2.2 rfl rfl

/-- C2 counterexample: when every provider returns a null price, the code
leaves `source` at its initial value `"alpha"` — the FIRST-tried provider —
which is neither null nor the name of the last-tried provider (`"stooq"`),
contradicting the claim's disjunction. -/
theorem C2_counterexample :
    (quoteStep ⟨none, none, none⟩ ⟨none, none, none⟩ ⟨none, none, none⟩
        "PETR4.SA").1.source = some "alpha" ∧
    ¬ ((quoteStep ⟨none, none, none⟩ ⟨none, none, none⟩ ⟨none, none, none⟩
        "PETR4.SA").1.source = none ∨
       (quoteStep ⟨none, none, none⟩ ⟨none, none, none⟩ ⟨none, none, none⟩
        "PETR4.SA").1.source = some "stooq") := by
  decide

/-- C2 (amended): for every ticker for which every provider returns a null
price, the errors collection contains `{symbol, error:
"no_data_all_sources"}` for it, and the result collection still contains a
quote record for it with all numeric fields null and `source` equal to the
name of the FIRST-tried provider, `"alpha"` (not null, and not the
last-tried provider's name). -/
theorem C2_exhaustion_amended (aPrice : String → Option ℚ)
    (yfq : String → ProviderQuote) (sPrice : String → Option ℚ)
    (symbols : String)
    (hall : ∀ t, aPrice t = none ∧ (yfq t).price = none ∧ sPrice t = none) :
    (quote aPrice yfq sPrice symbols).result =
      (parseSymbols symbols).map
        (fun t => ⟨t, none, none, none, some "alpha"⟩) ∧
    (quote aPrice yfq sPrice symbols).errors =
      (parseSymbols symbols).map (fun t => ⟨t, "no_data_all_sources"⟩) := by
  have h : ∀ t : String,
      quoteStep ⟨aPrice t, none, none⟩ (yfq t) ⟨sPrice t, none, none⟩ t =
        (⟨t, none, none, none, some "alpha"⟩,
         some ⟨t, "no_data_all_sources"⟩) := by
    intro t
    obtain ⟨h1, h2, h3⟩ := hall t
    rw [h1, h3]
    exact quoteStep_all_none (yfq t) t h2
  have hm := map_fst_filterMap_snd (parseSymbols symbols)
    (fun t => quoteStep ⟨aPrice t, none, none⟩ (yfq t) ⟨sPrice t, none, none⟩ t)
    (fun t => ⟨t, none, none, none, some "alpha"⟩)
    (fun t => ⟨t, "no_data_all_sources"⟩) h
  exact ⟨hm.1, hm.2⟩

/-- C2 witness: the amended claim at a concrete input where every provider
returns null for every ticker. -/
theorem C2_exhaustion_amended_witness :
    (quote (fun _ => none) (fun _ => ⟨none, none, none⟩) (fun _ => none)
        "PETR4.SA").result =
      [⟨"PETR4.SA", none, none, none, some "alpha"⟩] ∧
    (quote (fun _ => none) (fun _ => ⟨none, none, none⟩) (fun _ => none)
        "PETR4.SA").errors =
      [⟨"PETR4.SA", "no_data_all_sources"⟩] := by
  have h := C2_exhaustion_amended (fun _ => none)
    (fun _ => ⟨none, none, none⟩) (fun _ => none) "PETR4.SA"
    (fun _ => ⟨rfl, rfl, rfl⟩)
  exact ⟨by rw [h.1]; rfl, by rw [h.2]; rfl⟩

/-- C3: the chart providers are tried in order Alpha, yfinance, Stooq and
the first one returning a non-empty closes series determines the response
`{close, source}`; if every provider returns an empty series, the endpoint
returns a call-level HTTP 502 whose body is exactly
`{"error":"no_data_all_sources"}`, rather than an inline per-item error. -/
theorem C3_chart_fallback (a : String → List ℚ)
    (y : String → String → String → List ℚ) (st : String → String → List ℚ)
    (symbol range interval : String) :
    (a symbol ≠ [] →
      chart a y st symbol range interval = ChartResult.ok (a symbol) "alpha") ∧
    (a symbol = [] → y symbol range interval ≠ [] →
      chart a y st symbol range interval =
        ChartResult.ok (y symbol range interval) "yfinance") ∧
    (a symbol = [] → y symbol range interval = [] →
        st symbol (stooqInterval interval) ≠ [] →
      chart a y st symbol range interval =
        ChartResult.ok (st symbol (stooqInterval interval)) "stooq") ∧
    (a symbol = [] → y symbol range interval = [] →
        st symbol (stooqInterval interval) = [] →
      chart a y st symbol range interval =
        ChartResult.err 502 "\x7b\"error\":\"no_data_all_sources\"\x7d") := by
  refine ⟨?_, ?_, ?_, ?_⟩ <;> intros <;> simp [chart, *]

/-- C3 witness: all providers empty at concrete inputs gives the 502
response. -/
theorem C3_chart_fallback_witness :
    chart (fun _ => []) (fun _ _ _ => []) (fun _ _ => []) "PETR4.SA" "ytd" "1d" =
      ChartResult.err 502 "\x7b\"error\":\"no_data_all_sources\"\x7d" :=
  (C3_chart_fallback (fun _ => []) (fun _ _ _ => []) (fun _ _ => [])
    "PETR4.SA" "ytd" "1d").2.2.2 rfl rfl rfl

/-- C4: a `get` following a `set` of key `k` at time `t0` returns the
stored value unchanged (and leaves the cache unchanged) while
`now - storedAt ≤ 60`; once `now - storedAt > 60`, `get` returns absent
and deletes the entry, and subsequent `get`s for the same key also return
absent (at any later time) until a fresh `set` repopulates it. -/
theorem C4_cache_ttl {K V : Type} [DecidableEq K] (c : Cache K V) (k : K)
    (v : V) (t0 t1 : ℚ) :
    (t1 - t0 ≤ CACHE_TTL →
      (cache_get (cache_set c t0 k v) t1 k).1 = some v ∧
      (cache_get (cache_set c t0 k v) t1 k).2 = cache_set c t0 k v) ∧
    (t1 - t0 > CACHE_TTL →
      (cache_get (cache_set c t0 k v) t1 k).1 = none ∧
      (cache_get (cache_set c t0 k v) t1 k).2 k = none ∧
      (∀ t2 : ℚ,
        (cache_get ((cache_get (cache_set c t0 k v) t1 k).2) t2 k).1 = none)) := by
  constructor
  · intro h
    have hn : ¬ (t1 - t0 > CACHE_TTL) := not_lt.mpr h
    constructor
    · simp [cache_get, cache_set, hn]
    · simp [cache_get, cache_set, hn]
  · intro h
    refine ⟨?_, ?_, ?_⟩
    · simp [cache_get, cache_set, h]
    · simp [cache_get, cache_set, h]
    · intro t2
      simp [cache_get, cache_set, h]

/-- C4 witness: both branches of the TTL dichotomy at concrete times for a
concrete key and value (`set` at time 0, `get` at times 50 and 100). -/
theorem C4_cache_ttl_witness :
    (cache_get (cache_set (fun _ => none : Cache String ℕ) 0 "k" 7) 50 "k").1 =
      some 7 ∧
    (cache_get (cache_set (fun _ => none : Cache String ℕ) 0 "k" 7) 100 "k").1 =
      none ∧
    (cache_get
      ((cache_get (cache_set (fun _ => none : Cache String ℕ) 0 "k" 7) 100
        "k").2) 200 "k").1 = none := by
  refine ⟨?_, ?_, ?_⟩
  · exact ((C4_cache_ttl (fun _ => none) "k" 7 0 50).1 (by norm_num [CACHE_TTL])).1
  · exact ((C4_cache_ttl (fun _ => none) "k" 7 0 100).2 (by norm_num [CACHE_TTL])).1
  · exact ((C4_cache_ttl (fun _ => none) "k" 7 0 100).2 (by norm_num [CACHE_TTL])).2.2 200

/-- C5: `netDebt = totalDebt - cash`, null whenever either operand is null;
`ev = marketCap + netDebt`, null whenever either operand is null; in
particular, a null `totalDebt` forces both `netDebt` and `ev` to null
regardless of `cash` and `marketCap`. -/
theorem C5_null_propagation (ticker : String) (ov : Overview)
    (bal : BalanceLatest) (price : Option ℚ) :
    (∀ td ca, bal.TotalDebt = some td → bal.Cash = some ca →
      (fundamentals ticker ov bal price).netDebt = some (td - ca)) ∧
    (bal.TotalDebt = none ∨ bal.Cash = none →
      (fundamentals ticker ov bal price).netDebt = none) ∧
    (∀ mc nd, ov.MarketCapitalization = some mc →
      (fundamentals ticker ov bal price).netDebt = some nd →
      (fundamentals ticker ov bal price).ev = some (mc + nd)) ∧
    (ov.MarketCapitalization = none ∨
        (fundamentals ticker ov bal price).netDebt = none →
      (fundamentals ticker ov bal price).ev = none) ∧
    (bal.TotalDebt = none →
      (fundamentals ticker ov bal price).netDebt = none ∧
      (fundamentals ticker ov bal price).ev = none) := by
  obtain ⟨mc, eb, eps, bv, sh, peav, pbav, evav⟩ := ov
  obtain ⟨td, ca⟩ := bal
  refine ⟨?_, ?_, ?_, ?_, ?_⟩
  · intro d c hd hc
    subst hd; subst hc
    simp [fundamentals]
  · rintro (hd | hc)
    · subst hd; simp [fundamentals]
    · subst hc; cases td <;> simp [fundamentals]
  · intro m nd hm hnd
    subst hm
    cases td with
    | none => simp [fundamentals] at hnd
    | some d =>
      cases ca with
      | none => simp [fundamentals] at hnd
      | some c =>
        simp [fundamentals] at hnd ⊢
        rw [hnd]
  · rintro (hm | hnd)
    · subst hm; simp [fundamentals]
    · cases mc with
      | none => simp [fundamentals]
      | some m =>
        cases td with
        | none => simp [fundamentals]
        | some d =>
          cases ca with
          | none => simp [fundamentals]
          | some c => simp [fundamentals] at hnd
  · intro hd
    subst hd
    exact ⟨by simp [fundamentals], by simp [fundamentals]⟩

/-- C5 witness: `totalDebt` null with concrete non-null `cash` and
`marketCap` gives null `netDebt` and `ev`. -/
theorem C5_null_propagation_witness :
    (fundamentals "X" ⟨some 100, none, none, none, none, none, none, none⟩
      ⟨none, some 5⟩ none).netDebt = none ∧
    (fundamentals "X" ⟨some 100, none, none, none, none, none, none, none⟩
      ⟨none, some 5⟩ none).ev = none :=
  (C5_null_propagation "X" ⟨some 100, none, none, none, none, none, none, none⟩
    ⟨none, some 5⟩ none).2.2.2.2 rfl

/-- C6 counterexample: the claim says the code falls back to the
provider-reported ratio exactly when a required input is null or the
denominator is non-positive; but the `pe` guard in the code is `eps != 0`,
so with `price = 10`, `epsTTM = -1` (a non-positive denominator) and a
provider-reported `PERatio = 7`, the code returns the locally-computed
`-10` instead of falling back to `7`. -/
theorem C6_counterexample :
    (fundamentals "X" ovC6 ⟨none, none⟩ (some 10)).multiples.pe = some (-10) ∧
    ovC6.PERatio = some 7 ∧
    (fundamentals "X" ovC6 ⟨none, none⟩ (some 10)).multiples.pe ≠
      ovC6.PERatio := by
  have h : (fundamentals "X" ovC6 ⟨none, none⟩ (some 10)).multiples.pe =
      some (-10) := by
    rw [fundamentals_pe]
    show pyOr (if (-1 : ℚ) ≠ 0 then some ((10 : ℚ) / (-1)) else none)
      (some 7) = some (-10)
    norm_num [pyOr]
  refine ⟨h, rfl, ?_⟩
  rw [h]
  intro hc
  have := Option.some.inj hc
  norm_num at this

/-- C6 (amended): each multiple is the locally-computed ratio when that
computation is derivable under the code's guards AND yields a nonzero
value, and otherwise is the provider-reported ratio; the guards are:
`ebitda > 0` (with `ev` non-null) for evEbitda, `eps != 0` (with `price`
non-null; negative eps allowed) for pe, and `equityBookValue > 0` (with
`marketCap` non-null) for pb. A locally-computed ratio of zero is falsy in
Python's `or` chain, so it too falls back to the provider value. -/
theorem C6_multiples_amended (ticker : String) (ov : Overview)
    (bal : BalanceLatest) (price : Option ℚ) :
    ((∀ e b, (fundamentals ticker ov bal price).ev = some e →
        ov.EBITDA = some b → 0 < b → e ≠ 0 →
        (fundamentals ticker ov bal price).multiples.evEbitda = some (e / b)) ∧
     ((fundamentals ticker ov bal price).ev = none ∨ ov.EBITDA = none ∨
        (∃ b, ov.EBITDA = some b ∧ b ≤ 0) ∨
        (fundamentals ticker ov bal price).ev = some 0 →
        (fundamentals ticker ov bal price).multiples.evEbitda =
          ov.EVToEBITDA)) ∧
    ((∀ p e, price = some p → ov.DilutedEPSTTM = some e → e ≠ 0 → p ≠ 0 →
        (fundamentals ticker ov bal price).multiples.pe = some (p / e)) ∧
     (price = none ∨ ov.DilutedEPSTTM = none ∨ ov.DilutedEPSTTM = some 0 ∨
        price = some 0 →
        (fundamentals ticker ov bal price).multiples.pe = ov.PERatio)) ∧
    ((∀ m q, ov.MarketCapitalization = some m →
        (fundamentals ticker ov bal price).equityBookValue = some q →
        0 < q → m ≠ 0 →
        (fundamentals ticker ov bal price).multiples.pb = some (m / q)) ∧
     (ov.MarketCapitalization = none ∨
        (fundamentals ticker ov bal price).equityBookValue = none ∨
        (∃ q, (fundamentals ticker ov bal price).equityBookValue = some q ∧
          q ≤ 0) ∨
        ov.MarketCapitalization = some 0 →
        (fundamentals ticker ov bal price).multiples.pb =
          ov.PriceToBookRatio)) := by
  refine ⟨⟨?_, ?_⟩, ⟨?_, ?_⟩, ⟨?_, ?_⟩⟩
  · intro e b hev heb hb hne
    rw [fundamentals_evEbitda, hev, heb]
    simp [pyOr, hb, div_ne_zero hne (ne_of_gt hb)]
  · rintro (hev | heb | ⟨b, heb, hble⟩ | hev)
    · rw [fundamentals_evEbitda, hev]
      cases ov.EBITDA <;> simp [pyOr]
    · rw [fundamentals_evEbitda, heb]
      cases (fundamentals ticker ov bal price).ev <;> simp [pyOr]
    · rw [fundamentals_evEbitda, heb]
      cases (fundamentals ticker ov bal price).ev with
      | none => simp [pyOr]
      | some e0 => simp [pyOr, not_lt.mpr hble]
    · rw [fundamentals_evEbitda, hev]
      cases ov.EBITDA with
      | none => simp [pyOr]
      | some b0 =>
        by_cases hb0 : (0 : ℚ) < b0 <;> simp [pyOr, hb0, zero_div]
  · intro p e hp he hne hpne
    rw [fundamentals_pe, hp, he]
    simp [pyOr, hne, div_ne_zero hpne hne]
  · rintro (hp | he | he | hp)
    · rw [fundamentals_pe, hp]
      cases ov.DilutedEPSTTM <;> simp [pyOr]
    · rw [fundamentals_pe, he]
      cases price <;> simp [pyOr]
    · rw [fundamentals_pe, he]
      cases price <;> simp [pyOr]
    · rw [fundamentals_pe, hp]
      cases ov.DilutedEPSTTM with
      | none => simp [pyOr]
      | some e0 =>
        by_cases he0 : e0 = (0 : ℚ) <;> simp [pyOr, he0, zero_div]
  · intro m q hm hq hqpos hmne
    rw [fundamentals_pb, hm, hq]
    simp [pyOr, hqpos, div_ne_zero hmne (ne_of_gt hqpos)]
  · rintro (hm | hq | ⟨q, hq, hqle⟩ | hm)
    · rw [fundamentals_pb, hm]
      cases (fundamentals ticker ov bal price).equityBookValue <;> simp [pyOr]
    · rw [fundamentals_pb, hq]
      cases ov.MarketCapitalization <;> simp [pyOr]
    · rw [fundamentals_pb, hq]
      cases ov.MarketCapitalization with
      | none => simp [pyOr]
      | some m0 => simp [pyOr, not_lt.mpr hqle]
    · rw [fundamentals_pb, hm]
      cases (fundamentals ticker ov bal price).equityBookValue with
      | none => simp [pyOr]
      | some q0 =>
        by_cases hq0 : (0 : ℚ) < q0 <;> simp [pyOr, hq0, zero_div]

/-- C6 witness: concrete instances of the amended claim — a derivable
nonzero local `pe` (`10 / 2 = 5`) is preferred to the provider value, and a
null `price` falls back to the provider `PERatio`. -/
theorem C6_multiples_amended_witness :
    (fundamentals "X" ⟨none, none, some 2, none, none, some 7, none, none⟩
      ⟨none, none⟩ (some 10)).multiples.pe = some ((10 : ℚ) / 2) ∧
    (fundamentals "X" ⟨none, none, some 2, none, none, some 7, none, none⟩
      ⟨none, none⟩ none).multiples.pe = some 7 := by
  constructor
  · exact (C6_multiples_amended "X"
      ⟨none, none, some 2, none, none, some 7, none, none⟩ ⟨none, none⟩
      (some 10)).2.1.1 10 2 rfl rfl (by norm_num) (by norm_num)
  · exact (C6_multiples_amended "X"
      ⟨none, none, some 2, none, none, some 7, none, none⟩ ⟨none, none⟩
      none).2.1.2 (Or.inl rfl)

/-- C7: the `symbols` query string is split on commas, each token trimmed,
blank tokens discarded; the result collection contains exactly one quote
entry per remaining token, in input order (the endpoint is a total
function returning a 200 response body — per-ticker failures only add
inline error entries); in particular `symbols="A, ,B"` yields exactly the
two entries for `A` and `B`, in that order. -/
theorem C7_quote_parsing (aPrice : String → Option ℚ)
    (yfq : String → ProviderQuote) (sPrice : String → Option ℚ)
    (symbols : String) :
    (quote aPrice yfq sPrice symbols).result.map QuoteOut.symbol =
      (((pySplit ',' symbols.data).map pyStrip).filter
        (fun l => l ≠ [])).map String.mk ∧
    parseSymbols "A, ,B" = ["A", "B"] ∧
    (quote aPrice yfq sPrice "A, ,B").result.map QuoteOut.symbol =
      ["A", "B"] := by
  have key : ∀ l : List String,
      ((l.map (fun t => quoteStep ⟨aPrice t, none, none⟩ (yfq t)
          ⟨sPrice t, none, none⟩ t)).map Prod.fst).map QuoteOut.symbol = l := by
    intro l
    induction l with
    | nil => rfl
    | cons a l ih =>
      rw [List.map_cons, List.map_cons, List.map_cons, ih]
      show a :: l = a :: l
      rfl
  refine ⟨key (parseSymbols symbols), by decide, ?_⟩
  have h2 := key (parseSymbols "A, ,B")
  have h3 : parseSymbols "A, ,B" = ["A", "B"] := by decide
  rw [h3] at h2
  exact h2

/-- C8: symbol translation is a pure, deterministic function: the Alpha
translation and the Stooq translation are functions of the input ticker
alone (the source lines 38-42 consult no mutable state), so equal inputs
always yield equal provider-specific symbols. -/
theorem C8_translation_deterministic (s1 s2 : String) (h : s1 = s2) :
    to_alpha_symbol s1 = to_alpha_symbol s2 ∧
    stooq_symbol s1 = stooq_symbol s2 := by
  subst h
  exact ⟨rfl, rfl⟩

/-- C8 witness: determinism at a concrete ticker. -/
theorem C8_translation_deterministic_witness :
    to_alpha_symbol "PETR4.SA" = to_alpha_symbol "PETR4.SA" ∧
    stooq_symbol "PETR4.SA" = stooq_symbol "PETR4.SA" :=
  C8_translation_deterministic "PETR4.SA" "PETR4.SA" rfl

/-- C9: the fundamentals endpoint is a total function with a fixed
response shape: for every ticker and every upstream outcome (including the
all-failure outcome in which the overview is empty, the balance sheet has
no reports and no price is found), it returns an object containing all
declared fields, with `symbol` equal to the input ticker trimmed and
uppercased and `source` always the literal `"alpha"`. -/
theorem C9_fundamentals_shape (ticker : String) (ov : Overview)
    (bal : BalanceLatest) (price : Option ℚ) :
    (fundamentals ticker ov bal price).symbol =
      String.mk (pyUpper (pyStrip ticker.data)) ∧
    (fundamentals ticker ov bal price).source = "alpha" ∧
    fundamentals " aapl " ⟨none, none, none, none, none, none, none, none⟩
        ⟨none, none⟩ none =
      ⟨"AAPL", "alpha", none, none, none, none, none, none, none, none,
        none, none, none, ⟨none, none, none⟩⟩ :=
  ⟨rfl, rfl, by decide⟩

/-- C10: the Alpha symbol translation appends the `".SAO"` market code
unconditionally and removes `".SA"` as a substring anywhere in the
uppercased input: every output ends with `".SAO"`, a ticker with no
`".SA"` suffix gets it appended (`"AAPL"` becomes `"AAPL.SAO"`), and an
inner `".SA"` occurrence is deleted (`"x.say"` becomes `"XY.SAO"`). -/
theorem C10_alpha_symbol_sao (s : String) :
    List.IsSuffix ".SAO".data (to_alpha_symbol s).data ∧
    to_alpha_symbol "AAPL" = "AAPL.SAO" ∧
    to_alpha_symbol "x.say" = "XY.SAO" :=
  ⟨⟨replaceAll ".SA".data [] (pyUpper (pyStrip s.data)), rfl⟩,
   by decide, by decide⟩

end IRRailway
